import Mathlib

/-!
Shallow embedding of the dataset lifecycle manager in
src/ingestion_program/datasets.py (class Data) and the
pseudo-experiment orchestration contract, together with proofs of the
specified properties.

Modelling conventions:
- A filesystem is a partial map from paths (lists of path components,
  mirroring os.path.join) to raw file contents.  A raw file is either a
  text file (a list of lines, mirroring read().splitlines()) or a
  parquet file holding an opaque table of type T.
- Parsing newline floats (np.array(lines, dtype=float)) is modelled by
  an abstract per-line parser pf : String -> Option Rat; json.load is
  modelled by an abstract parser jp from lines to a string-keyed
  association list with opaque values of type V.
- Python exceptions are modelled by Except DataError; a raised exception
  does not roll back attribute assignments already performed, so every
  operation returns the (possibly mutated) manager state next to its
  Except result.
- A Python instance attribute that can be removed with del is modelled
  by Attr: missing (attribute deleted, access raises AttributeError),
  pyNone (attribute present and bound to None), or val.
- The external systematics collaborator functions are taken as
  parameters (pure functions into Except, or relations where the claim
  is conditional on their determinism contract).
-/

deriving instance DecidableEq for Except

/-- Error taxonomy: MissingFile models FileNotFoundError, MalformedData
models parse failures (ValueError, JSONDecodeError, pyarrow errors),
KeyError and AttributeError model the Python exceptions of those names,
and PreconditionViolation is the caller-error condition named by the
design document (no code path in datasets.py produces it). -/
inductive DataError where
  | MissingFile (path : List String)
  | MalformedData (path : List String)
  | KeyError (key : String)
  | AttributeError (name : String)
  | PreconditionViolation
  deriving DecidableEq, Repr

/-- Raw content of a file on disk: a text file as its list of lines, or
a parquet file holding an opaque table. -/
inductive RawFile (T : Type) where
  | text (lines : List String)
  | parquet (t : T)
  deriving DecidableEq, Repr

/-- A filesystem: partial map from paths to raw contents. -/
def FS (T : Type) := List String → Option (RawFile T)

/-- A Python instance attribute slot: deleted (del), bound to None, or
bound to a value. -/
inductive Attr (α : Type) where
  | missing
  | pyNone
  | val (a : α)
  deriving DecidableEq, Repr

/-- The train partition dictionary assembled by load_train_set. -/
structure TrainSet (T V : Type) where
  data : T
  labels : List Rat
  settings : List (String × V)
  weights : List Rat
  detailed_labels : List String
  deriving DecidableEq, Repr

/-- The state of a Data manager: the two private partition slots, the
immutable input directory, and the ground_truth_mus attribute (none
while the attribute does not exist yet). The test-set slot is never
deleted by any operation, so a plain Option suffices for it. -/
structure Data (T V : Type) where
  train_set : Attr (TrainSet T V)
  test_set : Option (List (String × T))
  input_dir : List String
  ground_truth_mus : Option V
  deriving DecidableEq, Repr

/-- Data.__init__: both partitions start absent (None) and the
ground_truth_mus attribute does not exist yet.  It takes no filesystem
argument: construction performs no disk access. -/
def Data.init (T V : Type) (input_dir : List String) : Data T V :=
  { train_set := Attr.pyNone
    test_set := none
    input_dir := input_dir
    ground_truth_mus := none }

def trainDataPath (dir : List String) : List String :=
  dir ++ ["train", "data", "data.parquet"]

def trainLabelsPath (dir : List String) : List String :=
  dir ++ ["train", "labels", "data.labels"]

def trainSettingsPath (dir : List String) : List String :=
  dir ++ ["train", "settings", "data.json"]

def trainWeightsPath (dir : List String) : List String :=
  dir ++ ["train", "weights", "data.weights"]

def trainDetailedLabelsPath (dir : List String) : List String :=
  dir ++ ["train", "detailed_labels", "data.detailed_labels"]

def testSettingsPath (dir : List String) : List String :=
  dir ++ ["test", "settings", "data.json"]

/-- Path of one per-category test file: test/data/{key}_data.parquet. -/
def testDataPath (dir : List String) (key : String) : List String :=
  dir ++ ["test", "data", key ++ "_data.parquet"]

/-- open(path) followed by read().splitlines(): missing file raises
FileNotFoundError; a parquet binary opened as text fails to decode. -/
def readTextLines {T : Type} (fs : FS T) (p : List String) :
    Except DataError (List String) :=
  match fs p with
  | none => Except.error (DataError.MissingFile p)
  | some (RawFile.text ls) => Except.ok ls
  | some (RawFile.parquet _) => Except.error (DataError.MalformedData p)

/-- np.array(f.read().splitlines(), dtype=float): every line must parse
as a float, else ValueError (MalformedData). -/
def readFloatLines {T : Type} (fs : FS T) (pf : String → Option Rat)
    (p : List String) : Except DataError (List Rat) :=
  match readTextLines fs p with
  | Except.error e => Except.error e
  | Except.ok ls =>
    match ls.mapM pf with
    | none => Except.error (DataError.MalformedData p)
    | some xs => Except.ok xs

/-- json.load(f): the file must exist and its text must parse as a json
object, else JSONDecodeError (MalformedData). -/
def readJson {T V : Type} (fs : FS T)
    (jp : List String → Option (List (String × V))) (p : List String) :
    Except DataError (List (String × V)) :=
  match readTextLines fs p with
  | Except.error e => Except.error e
  | Except.ok ls =>
    match jp ls with
    | none => Except.error (DataError.MalformedData p)
    | some j => Except.ok j

/-- pd.read_parquet(path, engine="pyarrow"): missing file raises
FileNotFoundError; a non-parquet file raises a pyarrow error. -/
def readParquet {T : Type} (fs : FS T) (p : List String) :
    Except DataError T :=
  match fs p with
  | none => Except.error (DataError.MissingFile p)
  | some (RawFile.parquet t) => Except.ok t
  | some (RawFile.text _) => Except.error (DataError.MalformedData p)

/-- Python dict subscript d[k] on a parsed json object. -/
def jlookup {V : Type} (j : List (String × V)) (k : String) : Option V :=
  match j with
  | [] => none
  | (k₀, v₀) :: rest => if k₀ = k then some v₀ else jlookup rest k

/-- Data.load_train_set: reads the labels, settings, weights and
detailed-labels text files in source order, then the parquet table
(evaluated inside the dict literal), assigns the assembled dict to
self.__train_set, and only then reads test/settings/data.json and
assigns self.ground_truth_mus.  An exception raised after the train-set
assignment leaves that assignment in place. -/
def load_train_set {T V : Type} (fs : FS T) (pf : String → Option Rat)
    (jp : List String → Option (List (String × V))) (d : Data T V) :
    Except DataError Unit × Data T V :=
  match readFloatLines fs pf (trainLabelsPath d.input_dir) with
  | Except.error e => (Except.error e, d)
  | Except.ok train_labels =>
  match readJson fs jp (trainSettingsPath d.input_dir) with
  | Except.error e => (Except.error e, d)
  | Except.ok train_settings =>
  match readFloatLines fs pf (trainWeightsPath d.input_dir) with
  | Except.error e => (Except.error e, d)
  | Except.ok train_weights =>
  match readTextLines fs (trainDetailedLabelsPath d.input_dir) with
  | Except.error e => (Except.error e, d)
  | Except.ok train_detailed_labels =>
  match readParquet fs (trainDataPath d.input_dir) with
  | Except.error e => (Except.error e, d)
  | Except.ok table =>
  let ts : TrainSet T V :=
    { data := table
      labels := train_labels
      settings := train_settings
      weights := train_weights
      detailed_labels := train_detailed_labels }
  let d₁ : Data T V := { d with train_set := Attr.val ts }
  match readJson fs jp (testSettingsPath d.input_dir) with
  | Except.error e => (Except.error e, d₁)
  | Except.ok test_settings =>
  match jlookup test_settings "ground_truth_mus" with
  | none => (Except.error (DataError.KeyError "ground_truth_mus"), d₁)
  | some mus => (Except.ok (), { d₁ with ground_truth_mus := some mus })

/-- The fixed category keys of the test partition, in the dict-iteration
order of the source. -/
def testKeys : List String := ["ztautau", "diboson", "ttbar", "htautau"]

/-- Data.load_test_set: reads the four per-category parquet files in
dict-key order and installs the completed mapping; a failure on any read
happens before the assignment to self.__test_set. -/
def load_test_set {T V : Type} (fs : FS T) (d : Data T V) :
    Except DataError Unit × Data T V :=
  match readParquet fs (testDataPath d.input_dir "ztautau") with
  | Except.error e => (Except.error e, d)
  | Except.ok tz =>
  match readParquet fs (testDataPath d.input_dir "diboson") with
  | Except.error e => (Except.error e, d)
  | Except.ok tdb =>
  match readParquet fs (testDataPath d.input_dir "ttbar") with
  | Except.error e => (Except.error e, d)
  | Except.ok ttb =>
  match readParquet fs (testDataPath d.input_dir "htautau") with
  | Except.error e => (Except.error e, d)
  | Except.ok th =>
    let m := [("ztautau", tz), ("diboson", tdb), ("ttbar", ttb), ("htautau", th)]
    (Except.ok (), { d with test_set := some m })

/-- Data.get_train_set: returns self.__train_set; after del the
attribute access raises AttributeError.  No state change. -/
def get_train_set {T V : Type} (d : Data T V) :
    Except DataError (Option (TrainSet T V)) × Data T V :=
  match d.train_set with
  | Attr.missing => (Except.error (DataError.AttributeError "_Data__train_set"), d)
  | Attr.pyNone => (Except.ok none, d)
  | Attr.val t => (Except.ok (some t), d)

/-- Data.get_test_set: returns self.__test_set (never deleted). -/
def get_test_set {T V : Type} (d : Data T V) :
    Except DataError (Option (List (String × T))) × Data T V :=
  (Except.ok d.test_set, d)

/-- Data.delete_train_set: executes del self.__train_set, which removes
the attribute when it exists and raises AttributeError when it has
already been removed. -/
def delete_train_set {T V : Type} (d : Data T V) :
    Except DataError Unit × Data T V :=
  match d.train_set with
  | Attr.missing => (Except.error (DataError.AttributeError "_Data__train_set"), d)
  | _ => (Except.ok (), { d with train_set := Attr.missing })

/-- One call into the external systematics collaborator, recorded with
the arguments it was given. -/
inductive CollabCall (T : Type) where
  | bootstrapCall (input : Option (List (String × T))) (mu : Rat)
      (ttbar_scale diboson_scale bkg_scale : Option Rat) (seed : Int)
  | systCall (input : List (String × T)) (tes jes soft_met : Rat)
  deriving DecidableEq, Repr

/-- Data.generate_psuedo_exp_data: passes self.__test_set as-is (with no
precondition check) to get_bootstraped_dataset, then feeds the result to
get_systematics_dataset and returns its output.  The collaborator
functions boot and syst2 are parameters; the returned list records the
collaborator calls performed, and the returned state is the manager
state after the call (no attribute is ever assigned). -/
def generate_psuedo_exp_data {T V : Type}
    (boot : Option (List (String × T)) → Rat → Option Rat → Option Rat →
      Option Rat → Int → Except DataError (List (String × T)))
    (syst2 : List (String × T) → Rat → Rat → Rat →
      Except DataError (List (String × T)))
    (d : Data T V) (set_mu tes jes soft_met : Rat)
    (ttbar_scale diboson_scale bkg_scale : Option Rat) (seed : Int) :
    Except DataError (List (String × T)) × Data T V × List (CollabCall T) :=
  let c₁ : CollabCall T :=
    CollabCall.bootstrapCall d.test_set set_mu ttbar_scale diboson_scale
      bkg_scale seed
  match boot d.test_set set_mu ttbar_scale diboson_scale bkg_scale seed with
  | Except.error e => (Except.error e, d, [c₁])
  | Except.ok pesudo_exp_data =>
    let c₂ : CollabCall T :=
      CollabCall.systCall pesudo_exp_data tes jes soft_met
    match syst2 pesudo_exp_data tes jes soft_met with
    | Except.error e => (Except.error e, d, [c₁, c₂])
    | Except.ok test_set => (Except.ok test_set, d, [c₁, c₂])

/-- Data.get_syst_train_set: reads self.__train_set (AttributeError if
deleted); when it is None, performs load_train_set first; then calls the
systematics collaborator on the (re-read) stored train set.  The third
component counts the implicit load_train_set invocations. -/
def get_syst_train_set {T V : Type} (fs : FS T) (pf : String → Option Rat)
    (jp : List String → Option (List (String × V)))
    (syst : Option (TrainSet T V) → Rat → Rat → Rat → Option Rat →
      Option Rat → Option Rat → Except DataError (TrainSet T V))
    (d : Data T V) (tes jes soft_met : Rat)
    (ttbar_scale diboson_scale bkg_scale : Option Rat) :
    Except DataError (TrainSet T V) × Data T V × Nat :=
  match d.train_set with
  | Attr.missing =>
    (Except.error (DataError.AttributeError "_Data__train_set"), d, 0)
  | Attr.pyNone =>
    match load_train_set fs pf jp d with
    | (Except.error e, d₁) => (Except.error e, d₁, 1)
    | (Except.ok _, d₁) =>
      match d₁.train_set with
      | Attr.missing =>
        (Except.error (DataError.AttributeError "_Data__train_set"), d₁, 1)
      | Attr.pyNone =>
        (syst none tes jes soft_met ttbar_scale diboson_scale bkg_scale, d₁, 1)
      | Attr.val t =>
        (syst (some t) tes jes soft_met ttbar_scale diboson_scale bkg_scale,
          d₁, 1)
  | Attr.val t =>
    (syst (some t) tes jes soft_met ttbar_scale diboson_scale bkg_scale, d, 0)

/-- The relational form of the orchestration step of
generate_psuedo_exp_data, for claims conditional on the determinism
contract of the external collaborator: B relates a bootstrap input tuple
to a possible resampled set, S relates a systematics input tuple to a
possible shifted set, and the output is any set reachable by the
two-step sequence of the source. -/
def GenerateRel {T V : Type}
    (B : Option (List (String × T)) → Rat → Option Rat → Option Rat →
      Option Rat → Int → List (String × T) → Prop)
    (S : List (String × T) → Rat → Rat → Rat → List (String × T) → Prop)
    (d : Data T V) (set_mu tes jes soft_met : Rat)
    (ttbar_scale diboson_scale bkg_scale : Option Rat) (seed : Int)
    (out : List (String × T)) : Prop :=
  ∃ pesudo_exp_data,
    B d.test_set set_mu ttbar_scale diboson_scale bkg_scale seed
      pesudo_exp_data ∧
    S pesudo_exp_data tes jes soft_met out

/-! ### Concrete fixtures used by witnesses and counterexamples -/

/-- A concrete input directory. -/
def dir₀ : List String := ["root"]

/-- A concrete per-line float parser: only the line "0" parses. -/
def pf₀ : String → Option Rat := fun s => if s = "0" then some 0 else none

/-- A concrete json parser: only the text ["gt"] parses, to an object
holding a ground_truth_mus field. -/
def jp₀ : List String → Option (List (String × Nat)) :=
  fun ls => if ls = ["gt"] then some [("ground_truth_mus", 7)] else none

/-- A filesystem holding every file the Data class reads, all well
formed. -/
def goodFS : FS Nat := fun p =>
  if p = trainLabelsPath dir₀ then some (RawFile.text ["0"])
  else if p = trainSettingsPath dir₀ then some (RawFile.text ["gt"])
  else if p = trainWeightsPath dir₀ then some (RawFile.text ["0"])
  else if p = trainDetailedLabelsPath dir₀ then some (RawFile.text ["htautau"])
  else if p = trainDataPath dir₀ then some (RawFile.parquet 1)
  else if p = testSettingsPath dir₀ then some (RawFile.text ["gt"])
  else if p = testDataPath dir₀ "ztautau" then some (RawFile.parquet 2)
  else if p = testDataPath dir₀ "diboson" then some (RawFile.parquet 3)
  else if p = testDataPath dir₀ "ttbar" then some (RawFile.parquet 4)
  else if p = testDataPath dir₀ "htautau" then some (RawFile.parquet 5)
  else none

/-- goodFS with the test-side settings file removed: all five train
files are present, test/settings/data.json is absent. -/
def noTestSettingsFS : FS Nat := fun p =>
  if p = testSettingsPath dir₀ then none else goodFS p

/-- goodFS with the diboson per-category test file removed. -/
def missingDibosonFS : FS Nat := fun p =>
  if p = testDataPath dir₀ "diboson" then none else goodFS p

/-- A freshly constructed manager over dir₀. -/
def d₀ : Data Nat Nat := Data.init Nat Nat dir₀

/-- A concrete bootstrap collaborator function. -/
def boot₀ : Option (List (String × Nat)) → Rat → Option Rat → Option Rat →
    Option Rat → Int → Except DataError (List (String × Nat)) :=
  fun _ _ _ _ _ _ => Except.ok [("z", 5)]

/-- A concrete systematics-application collaborator function. -/
def syst₀ : List (String × Nat) → Rat → Rat → Rat →
    Except DataError (List (String × Nat)) :=
  fun i _ _ _ => Except.ok i

/-- A concrete train-side systematics collaborator function. -/
def systTrain₀ : Option (TrainSet Nat Nat) → Rat → Rat → Rat → Option Rat →
    Option Rat → Option Rat → Except DataError (TrainSet Nat Nat) :=
  fun i _ _ _ _ _ _ =>
    match i with
    | some t => Except.ok t
    | none => Except.error DataError.PreconditionViolation

/-- A concrete deterministic bootstrap relation. -/
def B₀ : Option (List (String × Nat)) → Rat → Option Rat → Option Rat →
    Option Rat → Int → List (String × Nat) → Prop :=
  fun _ _ _ _ _ _ o => o = [("z", 5)]

/-- A concrete deterministic systematics relation. -/
def S₀ : List (String × Nat) → Rat → Rat → Rat → List (String × Nat) → Prop :=
  fun i _ _ _ o => o = i

/-- Recognizer for parquet raw files. -/
def RawFile.isParquet {T : Type} : RawFile T → Bool
  | RawFile.parquet _ => true
  | RawFile.text _ => false

/-! ### Helper lemmas -/

/-- Every run of load_train_set has one of three shapes: an early
failure with the manager untouched, a late failure (test-settings read
or key lookup) with the new train partition already installed and
everything else untouched, or full success. -/
theorem load_train_shape {T V : Type} (fs : FS T) (pf : String → Option Rat)
    (jp : List String → Option (List (String × V))) (d : Data T V) :
    (∃ e, load_train_set fs pf jp d = (Except.error e, d)) ∨
    (∃ ts e, load_train_set fs pf jp d =
      (Except.error e, { d with train_set := Attr.val ts })) ∨
    (∃ ts j mus, readJson fs jp (testSettingsPath d.input_dir) = Except.ok j ∧
      jlookup j "ground_truth_mus" = some mus ∧
      load_train_set fs pf jp d =
        (Except.ok (), { d with train_set := Attr.val ts,
                                ground_truth_mus := some mus })) := by
  cases hL : readFloatLines fs pf (trainLabelsPath d.input_dir) with
  | error eL => exact Or.inl ⟨eL, by simp [load_train_set, hL]⟩
  | ok train_labels =>
  cases hS : readJson fs jp (trainSettingsPath d.input_dir) with
  | error eS => exact Or.inl ⟨eS, by simp [load_train_set, hL, hS]⟩
  | ok train_settings =>
  cases hW : readFloatLines fs pf (trainWeightsPath d.input_dir) with
  | error eW => exact Or.inl ⟨eW, by simp [load_train_set, hL, hS, hW]⟩
  | ok train_weights =>
  cases hD : readTextLines fs (trainDetailedLabelsPath d.input_dir) with
  | error eD => exact Or.inl ⟨eD, by simp [load_train_set, hL, hS, hW, hD]⟩
  | ok train_detailed_labels =>
  cases hT : readParquet fs (trainDataPath d.input_dir) with
  | error eT => exact Or.inl ⟨eT, by simp [load_train_set, hL, hS, hW, hD, hT]⟩
  | ok table =>
  cases hJ : readJson fs jp (testSettingsPath d.input_dir) with
  | error eJ =>
    refine Or.inr (Or.inl ⟨TrainSet.mk table train_labels train_settings train_weights train_detailed_labels, eJ, ?_⟩)
    simp [load_train_set, hL, hS, hW, hD, hT, hJ]
  | ok test_settings =>
  cases hM : jlookup test_settings "ground_truth_mus" with
  | none =>
    refine Or.inr (Or.inl ⟨TrainSet.mk table train_labels train_settings train_weights train_detailed_labels, DataError.KeyError "ground_truth_mus", ?_⟩)
    simp [load_train_set, hL, hS, hW, hD, hT, hJ, hM]
  | some mus =>
    refine Or.inr (Or.inr ⟨TrainSet.mk table train_labels train_settings train_weights train_detailed_labels, test_settings, mus, rfl, hM, ?_⟩)
    simp [load_train_set, hL, hS, hW, hD, hT, hJ, hM]

/-! ### Claim theorems -/

/-- C1 counterexample: on a directory where all five train-side files
are present but test/settings/data.json is absent, load_train_set
raises, yet the train partition has been replaced (the freshly read
partition is installed), so the call is not atomic with respect to
every required file read. -/
theorem load_train_partial_install_on_missing_test_settings :
    (load_train_set noTestSettingsFS pf₀ jp₀ d₀).1 =
      Except.error (DataError.MissingFile (testSettingsPath dir₀)) ∧
    (load_train_set noTestSettingsFS pf₀ jp₀ d₀).2.train_set ≠ d₀.train_set := by
  decide

/-- C1 (amended): a complete case characterization of load_train_set,
establishing atomicity with respect to the five train-side file reads.
If any of the five reads fails, the call returns exactly the error of
the first failing read (in source order) with the manager completely
unchanged.  If all five succeed but the subsequent test-settings read
or ground-truth key lookup fails, the call raises with exactly the
partition assembled from the five read results already installed and
every other field of the manager (the cached ground-truth parameters
included) unchanged.  If everything succeeds, that partition and the
looked-up ground-truth parameters are both installed and nothing else
changes. -/
theorem load_train_atomic_up_to_ground_truth {T V : Type} (fs : FS T)
    (pf : String → Option Rat) (jp : List String → Option (List (String × V)))
    (d : Data T V) :
    (∀ e, readFloatLines fs pf (trainLabelsPath d.input_dir) = Except.error e →
      load_train_set fs pf jp d = (Except.error e, d)) ∧
    (∀ labels e,
      readFloatLines fs pf (trainLabelsPath d.input_dir) = Except.ok labels →
      readJson fs jp (trainSettingsPath d.input_dir) = Except.error e →
      load_train_set fs pf jp d = (Except.error e, d)) ∧
    (∀ labels settings e,
      readFloatLines fs pf (trainLabelsPath d.input_dir) = Except.ok labels →
      readJson fs jp (trainSettingsPath d.input_dir) = Except.ok settings →
      readFloatLines fs pf (trainWeightsPath d.input_dir) = Except.error e →
      load_train_set fs pf jp d = (Except.error e, d)) ∧
    (∀ labels settings weights e,
      readFloatLines fs pf (trainLabelsPath d.input_dir) = Except.ok labels →
      readJson fs jp (trainSettingsPath d.input_dir) = Except.ok settings →
      readFloatLines fs pf (trainWeightsPath d.input_dir) = Except.ok weights →
      readTextLines fs (trainDetailedLabelsPath d.input_dir) = Except.error e →
      load_train_set fs pf jp d = (Except.error e, d)) ∧
    (∀ labels settings weights detailed e,
      readFloatLines fs pf (trainLabelsPath d.input_dir) = Except.ok labels →
      readJson fs jp (trainSettingsPath d.input_dir) = Except.ok settings →
      readFloatLines fs pf (trainWeightsPath d.input_dir) = Except.ok weights →
      readTextLines fs (trainDetailedLabelsPath d.input_dir) = Except.ok detailed →
      readParquet fs (trainDataPath d.input_dir) = Except.error e →
      load_train_set fs pf jp d = (Except.error e, d)) ∧
    (∀ labels settings weights detailed table e,
      readFloatLines fs pf (trainLabelsPath d.input_dir) = Except.ok labels →
      readJson fs jp (trainSettingsPath d.input_dir) = Except.ok settings →
      readFloatLines fs pf (trainWeightsPath d.input_dir) = Except.ok weights →
      readTextLines fs (trainDetailedLabelsPath d.input_dir) = Except.ok detailed →
      readParquet fs (trainDataPath d.input_dir) = Except.ok table →
      readJson fs jp (testSettingsPath d.input_dir) = Except.error e →
      load_train_set fs pf jp d = (Except.error e,
        { d with train_set := Attr.val (TrainSet.mk table labels settings weights detailed) })) ∧
    (∀ labels settings weights detailed table j,
      readFloatLines fs pf (trainLabelsPath d.input_dir) = Except.ok labels →
      readJson fs jp (trainSettingsPath d.input_dir) = Except.ok settings →
      readFloatLines fs pf (trainWeightsPath d.input_dir) = Except.ok weights →
      readTextLines fs (trainDetailedLabelsPath d.input_dir) = Except.ok detailed →
      readParquet fs (trainDataPath d.input_dir) = Except.ok table →
      readJson fs jp (testSettingsPath d.input_dir) = Except.ok j →
      jlookup j "ground_truth_mus" = none →
      load_train_set fs pf jp d = (Except.error (DataError.KeyError "ground_truth_mus"),
        { d with train_set := Attr.val (TrainSet.mk table labels settings weights detailed) })) ∧
    (∀ labels settings weights detailed table j mus,
      readFloatLines fs pf (trainLabelsPath d.input_dir) = Except.ok labels →
      readJson fs jp (trainSettingsPath d.input_dir) = Except.ok settings →
      readFloatLines fs pf (trainWeightsPath d.input_dir) = Except.ok weights →
      readTextLines fs (trainDetailedLabelsPath d.input_dir) = Except.ok detailed →
      readParquet fs (trainDataPath d.input_dir) = Except.ok table →
      readJson fs jp (testSettingsPath d.input_dir) = Except.ok j →
      jlookup j "ground_truth_mus" = some mus →
      load_train_set fs pf jp d = (Except.ok (),
        { d with train_set := Attr.val (TrainSet.mk table labels settings weights detailed), ground_truth_mus := some mus })) := by
  refine ⟨?_, ?_, ?_, ?_, ?_, ?_, ?_, ?_⟩
  · intro e hL
    simp [load_train_set, hL]
  · intro labels e hL hS
    simp [load_train_set, hL, hS]
  · intro labels settings e hL hS hW
    simp [load_train_set, hL, hS, hW]
  · intro labels settings weights e hL hS hW hD
    simp [load_train_set, hL, hS, hW, hD]
  · intro labels settings weights detailed e hL hS hW hD hT
    simp [load_train_set, hL, hS, hW, hD, hT]
  · intro labels settings weights detailed table e hL hS hW hD hT hJ
    simp [load_train_set, hL, hS, hW, hD, hT, hJ]
  · intro labels settings weights detailed table j hL hS hW hD hT hJ hM
    simp [load_train_set, hL, hS, hW, hD, hT, hJ, hM]
  · intro labels settings weights detailed table j mus hL hS hW hD hT hJ hM
    simp [load_train_set, hL, hS, hW, hD, hT, hJ, hM]

/-- C1 witness: the late-failure case of the amended theorem applied to
the concrete filesystem on which the five train-side reads succeed and
test/settings/data.json is absent. -/
theorem load_train_atomic_up_to_ground_truth_witness :
    load_train_set noTestSettingsFS pf₀ jp₀ d₀ =
      (Except.error (DataError.MissingFile (testSettingsPath dir₀)),
        { d₀ with train_set := Attr.val (TrainSet.mk 1 [0] [("ground_truth_mus", 7)] [0] ["htautau"]) }) :=
  (load_train_atomic_up_to_ground_truth noTestSettingsFS pf₀ jp₀ d₀).2.2.2.2.2.1
    [0] [("ground_truth_mus", 7)] [0] ["htautau"] 1
    (DataError.MissingFile (testSettingsPath dir₀))
    (by decide) (by decide) (by decide) (by decide) (by decide) (by decide)

/-- C2: delete_train_set is not idempotent.  On a fresh manager the
first call succeeds and removes the train-set attribute (so the manager
is changed even when the partition was never loaded), and an immediate
second call raises AttributeError instead of being a no-op. -/
theorem delete_train_second_call_raises :
    (delete_train_set d₀).1 = Except.ok () ∧
    (delete_train_set d₀).2.train_set = Attr.missing ∧
    (delete_train_set d₀).2 ≠ d₀ ∧
    (delete_train_set (delete_train_set d₀).2).1 =
      Except.error (DataError.AttributeError "_Data__train_set") ∧
    (delete_train_set (delete_train_set d₀).2).2 = (delete_train_set d₀).2 := by
  decide

/-- C4: get_train_set is not total on reachable states: immediately
after delete_train_set it raises AttributeError instead of returning
the absent value None, while get_test_set still returns None; neither
accessor changes the state. -/
theorem get_train_after_delete_raises :
    (get_train_set (delete_train_set d₀).2).1 =
      Except.error (DataError.AttributeError "_Data__train_set") ∧
    (get_train_set (delete_train_set d₀).2).2 = (delete_train_set d₀).2 ∧
    (get_test_set (delete_train_set d₀).2).1 = Except.ok none ∧
    (get_test_set (delete_train_set d₀).2).2 = (delete_train_set d₀).2 := by
  decide

/-- C5: get_syst_train_set in the state immediately after
delete_train_set raises AttributeError, performs zero implicit loads
and never reaches the systematics collaborator, instead of implicitly
reloading the train partition. -/
theorem get_syst_train_after_delete_raises :
    (get_syst_train_set goodFS pf₀ jp₀ systTrain₀ (delete_train_set d₀).2
        1 1 0 none none none).1 =
      Except.error (DataError.AttributeError "_Data__train_set") ∧
    (get_syst_train_set goodFS pf₀ jp₀ systTrain₀ (delete_train_set d₀).2
        1 1 0 none none none).2.2 = 0 ∧
    (get_syst_train_set goodFS pf₀ jp₀ systTrain₀ (delete_train_set d₀).2
        1 1 0 none none none).2.1 = (delete_train_set d₀).2 := by
  decide

/-- C3 counterexample: generate_psuedo_exp_data called on a manager
whose test partition is absent does not raise PreconditionViolation and
does not perform zero collaborator calls: it invokes bootstrap (with
None as the test set) and then the systematics step. -/
theorem generate_on_absent_test_calls_bootstrap :
    (generate_psuedo_exp_data boot₀ syst₀ d₀ 1 1 1 0 none none none 42).1 ≠
      Except.error DataError.PreconditionViolation ∧
    (generate_psuedo_exp_data boot₀ syst₀ d₀ 1 1 1 0 none none none 42).2.2.length = 2 ∧
    (generate_psuedo_exp_data boot₀ syst₀ d₀ 1 1 1 0 none none none 42).2.2.head? =
      some (CollabCall.bootstrapCall none 1 none none none 42) := by
  decide

/-- C3 (amended): generate_psuedo_exp_data performs no precondition
check.  On a manager whose test partition is absent it leaves the
manager unchanged, never implicitly loads the test partition, and its
first collaborator call is a bootstrap call receiving the absent (None)
test set; at least one collaborator call always occurs. -/
theorem generate_absent_test_no_check {T V : Type}
    (boot : Option (List (String × T)) → Rat → Option Rat → Option Rat →
      Option Rat → Int → Except DataError (List (String × T)))
    (syst2 : List (String × T) → Rat → Rat → Rat →
      Except DataError (List (String × T)))
    (d : Data T V) (set_mu tes jes soft_met : Rat)
    (ttbar_scale diboson_scale bkg_scale : Option Rat) (seed : Int)
    (h : d.test_set = none) :
    (generate_psuedo_exp_data boot syst2 d set_mu tes jes soft_met
      ttbar_scale diboson_scale bkg_scale seed).2.1 = d ∧
    (generate_psuedo_exp_data boot syst2 d set_mu tes jes soft_met
      ttbar_scale diboson_scale bkg_scale seed).2.2.head? =
      some (CollabCall.bootstrapCall none set_mu ttbar_scale diboson_scale
        bkg_scale seed) ∧
    (generate_psuedo_exp_data boot syst2 d set_mu tes jes soft_met
      ttbar_scale diboson_scale bkg_scale seed).2.2 ≠ [] := by
  cases hb : boot none set_mu ttbar_scale diboson_scale bkg_scale seed with
  | error e => simp [generate_psuedo_exp_data, h, hb]
  | ok p =>
    cases hs : syst2 p tes jes soft_met with
    | error e => simp [generate_psuedo_exp_data, h, hb, hs]
    | ok r => simp [generate_psuedo_exp_data, h, hb, hs]

/-- C3 witness: the amended theorem applied to concrete collaborators
and the freshly constructed manager. -/
theorem generate_absent_test_no_check_witness :
    (generate_psuedo_exp_data boot₀ syst₀ d₀ 2 1 1 0 none none none 7).2.1 = d₀ ∧
    (generate_psuedo_exp_data boot₀ syst₀ d₀ 2 1 1 0 none none none 7).2.2.head? =
      some (CollabCall.bootstrapCall none 2 none none none 7) ∧
    (generate_psuedo_exp_data boot₀ syst₀ d₀ 2 1 1 0 none none none 7).2.2 ≠ [] :=
  generate_absent_test_no_check boot₀ syst₀ d₀ 2 1 1 0 none none none 7 (by decide)

/-- C6: load_test_set on a directory whose per-category test files are
each either absent or valid parquet: if at least one of the four files
is absent the call fails with MissingFile and the manager (in
particular any previously installed test partition) is unchanged; if
all four are present the call installs a mapping with exactly the four
category keys. -/
theorem load_test_category_completeness {T V : Type} (fs : FS T) (d : Data T V)
    (hwf : ∀ k ∈ testKeys,
      Option.all RawFile.isParquet (fs (testDataPath d.input_dir k)) = true) :
    ((∃ k ∈ testKeys, fs (testDataPath d.input_dir k) = none) →
      ∃ k ∈ testKeys, load_test_set fs d =
        (Except.error (DataError.MissingFile (testDataPath d.input_dir k)), d)) ∧
    ((∀ k ∈ testKeys, fs (testDataPath d.input_dir k) ≠ none) →
      ∃ m, load_test_set fs d = (Except.ok (), { d with test_set := some m }) ∧
        m.map Prod.fst = testKeys) := by
  have hz := hwf "ztautau" (by simp [testKeys])
  have hdb := hwf "diboson" (by simp [testKeys])
  have htt := hwf "ttbar" (by simp [testKeys])
  have hht := hwf "htautau" (by simp [testKeys])
  cases hcz : fs (testDataPath d.input_dir "ztautau") with
  | none =>
    constructor
    · intro _
      exact ⟨"ztautau", by simp [testKeys],
        by simp [load_test_set, readParquet, hcz]⟩
    · intro hall
      exact absurd hcz (hall "ztautau" (by simp [testKeys]))
  | some fz =>
    rw [hcz] at hz
    cases fz with
    | text ls => simp [Option.all, RawFile.isParquet] at hz
    | parquet tz =>
    cases hcdb : fs (testDataPath d.input_dir "diboson") with
    | none =>
      constructor
      · intro _
        exact ⟨"diboson", by simp [testKeys],
          by simp [load_test_set, readParquet, hcz, hcdb]⟩
      · intro hall
        exact absurd hcdb (hall "diboson" (by simp [testKeys]))
    | some fdb =>
      rw [hcdb] at hdb
      cases fdb with
      | text ls => simp [Option.all, RawFile.isParquet] at hdb
      | parquet tdb =>
      cases hctt : fs (testDataPath d.input_dir "ttbar") with
      | none =>
        constructor
        · intro _
          exact ⟨"ttbar", by simp [testKeys],
            by simp [load_test_set, readParquet, hcz, hcdb, hctt]⟩
        · intro hall
          exact absurd hctt (hall "ttbar" (by simp [testKeys]))
      | some ftt =>
        rw [hctt] at htt
        cases ftt with
        | text ls => simp [Option.all, RawFile.isParquet] at htt
        | parquet ttb =>
        cases hcht : fs (testDataPath d.input_dir "htautau") with
        | none =>
          constructor
          · intro _
            exact ⟨"htautau", by simp [testKeys],
              by simp [load_test_set, readParquet, hcz, hcdb, hctt, hcht]⟩
          · intro hall
            exact absurd hcht (hall "htautau" (by simp [testKeys]))
        | some fht =>
          rw [hcht] at hht
          cases fht with
          | text ls => simp [Option.all, RawFile.isParquet] at hht
          | parquet th =>
            constructor
            · intro hmiss
              rcases hmiss with ⟨k, hk, hnone⟩
              simp [testKeys] at hk
              rcases hk with rfl | rfl | rfl | rfl <;> simp_all
            · intro _
              refine ⟨[("ztautau", tz), ("diboson", tdb), ("ttbar", ttb), ("htautau", th)], ?_, by simp [testKeys]⟩
              simp [load_test_set, readParquet, hcz, hcdb, hctt, hcht]

/-- C6 witness: the theorem applied to a concrete filesystem missing
the diboson per-category file. -/
theorem load_test_category_completeness_witness :
    ∃ k ∈ testKeys, load_test_set missingDibosonFS d₀ =
      (Except.error (DataError.MissingFile (testDataPath d₀.input_dir k)), d₀) :=
  (load_test_category_completeness missingDibosonFS d₀ (by decide)).1
    ⟨"diboson", by decide, by decide⟩

/-- C7: after every successful load_train_set the cached ground-truth
parameters are exactly the ground_truth_mus field of the json object
read from test/settings/data.json at call time; and load_test_set never
touches the cached ground-truth parameters, so the value is independent
of whether load_test_set has ever been called. -/
theorem ground_truth_mus_from_test_settings {T V : Type} (fs : FS T)
    (pf : String → Option Rat) (jp : List String → Option (List (String × V)))
    (d : Data T V) :
    (∀ d', load_train_set fs pf jp d = (Except.ok (), d') →
      ∃ j mus, readJson fs jp (testSettingsPath d.input_dir) = Except.ok j ∧
        jlookup j "ground_truth_mus" = some mus ∧
        d'.ground_truth_mus = some mus) ∧
    (∀ d₂ : Data T V,
      (load_test_set fs d₂).2.ground_truth_mus = d₂.ground_truth_mus) := by
  constructor
  · intro d' h
    rcases load_train_shape fs pf jp d with ⟨e₁, hc⟩ | ⟨ts, e₁, hc⟩ |
      ⟨ts, j, mus, hj, hm, hc⟩
    · rw [hc] at h
      injection h with h1 h2
      exact Except.noConfusion h1
    · rw [hc] at h
      injection h with h1 h2
      exact Except.noConfusion h1
    · rw [hc] at h
      injection h with h1 h2
      subst h2
      exact ⟨j, mus, hj, hm, rfl⟩
  · intro d₂
    cases h1 : readParquet fs (testDataPath d₂.input_dir "ztautau") with
    | error e => simp [load_test_set, h1]
    | ok t1 =>
    cases h2 : readParquet fs (testDataPath d₂.input_dir "diboson") with
    | error e => simp [load_test_set, h1, h2]
    | ok t2 =>
    cases h3 : readParquet fs (testDataPath d₂.input_dir "ttbar") with
    | error e => simp [load_test_set, h1, h2, h3]
    | ok t3 =>
    cases h4 : readParquet fs (testDataPath d₂.input_dir "htautau") with
    | error e => simp [load_test_set, h1, h2, h3, h4]
    | ok t4 => simp [load_test_set, h1, h2, h3, h4]

/-- C7 witness: the theorem applied to the concrete filesystem on which
load_train_set succeeds. -/
theorem ground_truth_mus_from_test_settings_witness :
    ∃ j mus, readJson goodFS jp₀ (testSettingsPath d₀.input_dir) = Except.ok j ∧
      jlookup j "ground_truth_mus" = some mus ∧
      (load_train_set goodFS pf₀ jp₀ d₀).2.ground_truth_mus = some mus :=
  (ground_truth_mus_from_test_settings goodFS pf₀ jp₀ d₀).1
    (load_train_set goodFS pf₀ jp₀ d₀).2 (by decide)

/-- C8: generate_psuedo_exp_data mutates no manager state: for every
manager, collaborator pair and parameter tuple, the manager state after
the call equals the state before it (the collaborators are modelled as
pure functions, matching the assumption that they do not mutate their
input in place). -/
theorem generate_preserves_manager_state {T V : Type}
    (boot : Option (List (String × T)) → Rat → Option Rat → Option Rat →
      Option Rat → Int → Except DataError (List (String × T)))
    (syst2 : List (String × T) → Rat → Rat → Rat →
      Except DataError (List (String × T)))
    (d : Data T V) (set_mu tes jes soft_met : Rat)
    (ttbar_scale diboson_scale bkg_scale : Option Rat) (seed : Int) :
    (generate_psuedo_exp_data boot syst2 d set_mu tes jes soft_met
      ttbar_scale diboson_scale bkg_scale seed).2.1 = d := by
  cases hb : boot d.test_set set_mu ttbar_scale diboson_scale bkg_scale seed with
  | error e => simp [generate_psuedo_exp_data, hb]
  | ok p =>
    cases hs : syst2 p tes jes soft_met with
    | error e => simp [generate_psuedo_exp_data, hb, hs]
    | ok r => simp [generate_psuedo_exp_data, hb, hs]

/-- C9: the two-step orchestration of generate_psuedo_exp_data is
deterministic in its parameters, the seed included: if the bootstrap
and systematics collaborators each satisfy their determinism contract
(same input implies same output), then two runs against the same
manager with the same parameter tuple produce identical output. -/
theorem generate_deterministic_in_seed {T V : Type}
    (B : Option (List (String × T)) → Rat → Option Rat → Option Rat →
      Option Rat → Int → List (String × T) → Prop)
    (S : List (String × T) → Rat → Rat → Rat → List (String × T) → Prop)
    (hB : ∀ i mu a b c seed o₁ o₂,
      B i mu a b c seed o₁ → B i mu a b c seed o₂ → o₁ = o₂)
    (hS : ∀ i tes jes sm o₁ o₂,
      S i tes jes sm o₁ → S i tes jes sm o₂ → o₁ = o₂)
    (d : Data T V) (base : List (String × T)) (_hload : d.test_set = some base)
    (set_mu tes jes soft_met : Rat)
    (ttbar_scale diboson_scale bkg_scale : Option Rat) (seed : Int)
    (out₁ out₂ : List (String × T))
    (h₁ : GenerateRel B S d set_mu tes jes soft_met ttbar_scale diboson_scale
      bkg_scale seed out₁)
    (h₂ : GenerateRel B S d set_mu tes jes soft_met ttbar_scale diboson_scale
      bkg_scale seed out₂) :
    out₁ = out₂ := by
  obtain ⟨p₁, hb₁, hs₁⟩ := h₁
  obtain ⟨p₂, hb₂, hs₂⟩ := h₂
  have hp : p₁ = p₂ := hB _ _ _ _ _ _ _ _ hb₁ hb₂
  subst hp
  exact hS _ _ _ _ _ _ hs₁ hs₂

/-- A manager with the concrete test partition loaded from goodFS. -/
def dT : Data Nat Nat := (load_test_set goodFS d₀).2

/-- C9 witness: the theorem applied to concrete deterministic
collaborator relations, a manager with a loaded test partition, and the
parameter tuple of the design document (mu = 1, tes = 1, jes = 1,
soft_met = 0, scales None, seed = 42). -/
theorem generate_deterministic_in_seed_witness :
    GenerateRel B₀ S₀ dT 1 1 1 0 none none none 42 [("z", 5)] ∧
    ([("z", 5)] : List (String × Nat)) = [("z", 5)] :=
  ⟨⟨[("z", 5)], rfl, rfl⟩,
    generate_deterministic_in_seed B₀ S₀
      (fun _ _ _ _ _ _ _ _ h₁ h₂ => h₁.trans h₂.symm)
      (fun _ _ _ _ _ _ h₁ h₂ => h₁.trans h₂.symm)
      dT [("ztautau", 2), ("diboson", 3), ("ttbar", 4), ("htautau", 5)]
      (by decide) 1 1 1 0 none none none 42 [("z", 5)] [("z", 5)]
      ⟨[("z", 5)], rfl, rfl⟩ ⟨[("z", 5)], rfl, rfl⟩⟩

/-- C10: construction installs no partition and performs no disk access
(Data.init takes no filesystem argument and is total in the input
path): both accessors return None on a fresh manager without changing
it, the ground-truth attribute does not exist, and it still does not
exist after any failing load_train_set. -/
theorem init_absent_partitions (T V : Type) (dir : List String) :
    (Data.init T V dir).train_set = Attr.pyNone ∧
    (Data.init T V dir).test_set = none ∧
    (Data.init T V dir).ground_truth_mus = none ∧
    (Data.init T V dir).input_dir = dir ∧
    get_train_set (Data.init T V dir) = (Except.ok none, Data.init T V dir) ∧
    get_test_set (Data.init T V dir) = (Except.ok none, Data.init T V dir) ∧
    (∀ (fs : FS T) (pf : String → Option Rat)
      (jp : List String → Option (List (String × V))) (e : DataError)
      (d' : Data T V),
      load_train_set fs pf jp (Data.init T V dir) = (Except.error e, d') →
      d'.ground_truth_mus = none) := by
  refine ⟨rfl, rfl, rfl, rfl, rfl, rfl, ?_⟩
  intro fs pf jp e d' h
  rcases load_train_shape fs pf jp (Data.init T V dir) with ⟨e₁, hc⟩ |
    ⟨ts, e₁, hc⟩ | ⟨ts, j, mus, hj, hm, hc⟩
  · rw [hc] at h
    injection h with h1 h2
    subst h2
    rfl
  · rw [hc] at h
    injection h with h1 h2
    subst h2
    rfl
  · rw [hc] at h
    injection h with h1 h2
    exact Except.noConfusion h1

/-- C10 witness: the failing-load conjunct applied to a concrete
filesystem on which load_train_set raises. -/
theorem init_absent_partitions_witness :
    (load_train_set noTestSettingsFS pf₀ jp₀
      (Data.init Nat Nat dir₀)).2.ground_truth_mus = none :=
  (init_absent_partitions Nat Nat dir₀).2.2.2.2.2.2 noTestSettingsFS pf₀ jp₀
    (DataError.MissingFile (testSettingsPath dir₀))
    (load_train_set noTestSettingsFS pf₀ jp₀ (Data.init Nat Nat dir₀)).2
    (by decide)
